import Mathlib

/-!
Shallow embedding of the pediatric growth assessment engine of the
doklah repository (`src/health.js` together with the extended health
module that adds z-score support), and theorems settling the
specification claims about it.

Modelling conventions:
* JavaScript numbers are modelled as rationals (`ℚ`); `Math.abs` is
  `jsAbs`, `Math.round` (which rounds half-up) is `jsRound`, and
  `Math.max(0, x)` is `max 0 x`.
* The module-level mutable `childData` / `zScoreData` caches are passed
  explicitly as `Option` arguments (`none` = not yet loaded).
* Functions that `throw` are modelled with `Except HealthError`.
* String enums of the source (`'BOY'`, `'MONTH'`, `'INFANT'`,
  `'infant'`, ...) become inductive types with matching constructor
  names.
-/

inductive Gender
  | BOY
  | GIRL
deriving DecidableEq, Repr

inductive AgeUnit
  | MONTH
  | YEAR
deriving DecidableEq, Repr

/-- Growth stages returned by `calculateGrowthStage` (source strings
`'INFANT'`, `'CHILD'`, `'ADOLESCENT'`). -/
inductive Stage
  | INFANT
  | CHILD
  | ADOLESCENT
deriving DecidableEq, Repr

/-- Growth stages returned by `determineGrowthStage` (source strings
`'infant'`, `'child'`, `'adolescent'`). -/
inductive ZStage
  | infant
  | child
  | adolescent
deriving DecidableEq, Repr

/-- A WHO reference record from `data/child.json` as consumed by the
engine (`gender`, `age`, `ageUnit`, `weight`, `height`). -/
structure GrowthRecord where
  gender : Gender
  age : ℚ
  ageUnit : AgeUnit
  weight : ℚ
  height : ℚ
deriving DecidableEq, Repr

/-- The two error classes thrown by the resolvers:
`'Child data not loaded'` and `'No data found for gender: ...'`. -/
inductive HealthError
  | dataNotLoaded
  | noDataForGender (gender : Gender)
deriving DecidableEq, Repr

/-- `Math.abs`. -/
def jsAbs (q : ℚ) : ℚ := if q < 0 then -q else q

/-- `Math.round`: JavaScript rounds half-up. -/
def jsRound (q : ℚ) : ℤ := Rat.floor (q + 1/2)

/-- `convertToMonths(age, unit)`. -/
def convertToMonths (age : ℚ) (unit : AgeUnit) : ℚ :=
  match unit with
  | .MONTH => age
  | .YEAR => age * 12

/-- `calculateGrowthStage(age, unit)`: note that the adolescent test
reads the raw `age` value, not `months`. -/
def calculateGrowthStage (age : ℚ) (unit : AgeUnit) : Stage :=
  let months := convertToMonths age unit
  if months < 24 then .INFANT
  else if 6 ≤ age then .ADOLESCENT
  else .CHILD

/-- The gender filter `childData.filter((record) => record.gender === gender)`
shared by all three resolvers. -/
def genderCandidates (data : List GrowthRecord) (gender : Gender) : List GrowthRecord :=
  data.filter (fun record => record.gender == gender)

/-- One iteration of the `candidates.forEach` scan in `findMatchByAge`:
state is the pair `(closestByAge, minAgeDiff)`. -/
def ageStep (inputAgeMonths : ℚ) (st : GrowthRecord × ℚ) (record : GrowthRecord) :
    GrowthRecord × ℚ :=
  let recordAgeMonths := convertToMonths record.age record.ageUnit
  let ageDiff := jsAbs (recordAgeMonths - inputAgeMonths)
  if ageDiff < st.2 then (record, ageDiff)
  else if ageDiff = st.2 then
    -- If tie, prefer the higher age
    if convertToMonths st.1.age st.1.ageUnit < recordAgeMonths then (record, st.2)
    else st
  else st

/-- `findMatchByAge(gender, age, ageUnit)` over an explicit `childData`. -/
def findMatchByAge (childData : Option (List GrowthRecord)) (gender : Gender)
    (age : ℚ) (ageUnit : AgeUnit) : Except HealthError GrowthRecord :=
  match childData with
  | none => .error .dataNotLoaded
  | some data =>
    if data = [] then .error .dataNotLoaded
    else
      match genderCandidates data gender with
      | [] => .error (.noDataForGender gender)
      | c0 :: rest =>
        let inputAgeMonths := convertToMonths age ageUnit
        let start : GrowthRecord × ℚ :=
          (c0, jsAbs (convertToMonths c0.age c0.ageUnit - inputAgeMonths))
        .ok ((List.foldl (ageStep inputAgeMonths) start (c0 :: rest)).1)

/-- One iteration of the weight scan shared verbatim by
`findMatchByWeightAndHeight` and `findClosestMatch`. -/
def weightStep (weight : ℚ) (st : GrowthRecord × ℚ) (record : GrowthRecord) :
    GrowthRecord × ℚ :=
  let weightDiff := jsAbs (record.weight - weight)
  if weightDiff < st.2 then (record, weightDiff)
  else if weightDiff = st.2 then
    -- If tie, prefer the higher age
    if convertToMonths st.1.age st.1.ageUnit < convertToMonths record.age record.ageUnit then
      (record, st.2)
    else st
  else st

/-- The weight scan of both weight-based resolvers, starting from the
first gender candidate. -/
def weightScan (weight : ℚ) (c0 : GrowthRecord) (candidates : List GrowthRecord) :
    GrowthRecord :=
  (List.foldl (weightStep weight) (c0, jsAbs (c0.weight - weight)) candidates).1

/-- One iteration of the `group.forEach` scan in `findClosestInGroup`.
The dynamic string access `record[metric]` is modelled by an accessor
function; `tieBreak` is the truthiness of the `unitMetric` argument. -/
def closestInGroupStep (metric : GrowthRecord → ℚ) (value : ℚ) (tieBreak : Bool)
    (st : GrowthRecord × ℚ) (record : GrowthRecord) : GrowthRecord × ℚ :=
  let diff := jsAbs (metric record - value)
  if diff < st.2 then (record, diff)
  else if diff = st.2 ∧ tieBreak then
    -- If tie on metric, prefer higher value
    if metric st.1 < metric record then (record, st.2)
    else st
  else st

/-- `findClosestInGroup(group, metric, value, unitMetric)`.  A `none`
result corresponds to the `TypeError` the source would throw on an empty
group (`group[0]` is `undefined`); both call sites guard with
`group.length > 1`, so that path is unreachable there. -/
def findClosestInGroup (group : List GrowthRecord) (metric : GrowthRecord → ℚ)
    (value : ℚ) (tieBreak : Bool) : Option GrowthRecord :=
  match group with
  | [] => none
  | g0 :: rest =>
    some ((List.foldl (closestInGroupStep metric value tieBreak)
      (g0, jsAbs (metric g0 - value)) (g0 :: rest)).1)

/-- The weight group `candidates.filter(|record.weight − closest.weight| < 0.1)`. -/
def weightGroupAround (candidates : List GrowthRecord) (closest : GrowthRecord) :
    List GrowthRecord :=
  candidates.filter (fun record => jsAbs (record.weight - closest.weight) < 0.1)

/-- `findMatchByWeightAndHeight(gender, weight, height)` over an explicit
`childData`. -/
def findMatchByWeightAndHeight (childData : Option (List GrowthRecord))
    (gender : Gender) (weight : ℚ) (height : Option ℚ) :
    Except HealthError GrowthRecord :=
  match childData with
  | none => .error .dataNotLoaded
  | some data =>
    if data = [] then .error .dataNotLoaded
    else
      match genderCandidates data gender with
      | [] => .error (.noDataForGender gender)
      | c0 :: rest =>
        let closestByWeight := weightScan weight c0 (c0 :: rest)
        match height with
        | none => .ok closestByWeight
        | some hv =>
          let weightGroup := weightGroupAround (c0 :: rest) closestByWeight
          if 1 < weightGroup.length then
            .ok ((findClosestInGroup weightGroup (fun r => r.height) hv false).getD
              closestByWeight)
          else .ok closestByWeight

/-- `findClosestMatch(gender, weight, age, height)` over an explicit
`childData`.  The age refinement passes `unitMetric = 'ageUnit'`
(tie-break on) and compares the raw `record.age` field; the height
refinement passes no `unitMetric` (tie-break off). -/
def findClosestMatch (childData : Option (List GrowthRecord)) (gender : Gender)
    (weight : ℚ) (age : Option ℚ) (height : Option ℚ) :
    Except HealthError GrowthRecord :=
  match childData with
  | none => .error .dataNotLoaded
  | some data =>
    if data = [] then .error .dataNotLoaded
    else
      match genderCandidates data gender with
      | [] => .error (.noDataForGender gender)
      | c0 :: rest =>
        let closestByWeight := weightScan weight c0 (c0 :: rest)
        if age = none ∧ height = none then .ok closestByWeight
        else
          let weightGroup := weightGroupAround (c0 :: rest) closestByWeight
          if 1 < weightGroup.length then
            match age with
            | some av =>
              .ok ((findClosestInGroup weightGroup (fun r => r.age) av true).getD
                closestByWeight)
            | none =>
              match height with
              | some hv =>
                .ok ((findClosestInGroup weightGroup (fun r => r.height) hv false).getD
                  closestByWeight)
              | none => .ok closestByWeight
          else .ok closestByWeight

/-- The deviation→score piecewise mapping inside `calculateCloseness`. -/
def devToCloseness (averageDeviation : ℚ) : ℚ :=
  if averageDeviation ≤ 10 then 100
  else if averageDeviation ≤ 20 then 100 - (averageDeviation - 10) * 1
  else if averageDeviation ≤ 30 then 90 - (averageDeviation - 20) * 1.5
  else if averageDeviation ≤ 40 then 75 - (averageDeviation - 30) * 1.5
  else 60 - (averageDeviation - 40)

/-- `calculateCloseness(inputWeight, inputHeight, ageMatchedRecord)`:
deviation percentages, optional height averaging, piecewise mapping,
clamp at 0, round. -/
def calculateCloseness (inputWeight : ℚ) (inputHeight : Option ℚ)
    (ageMatchedRecord : Option GrowthRecord) : ℤ :=
  match ageMatchedRecord with
  | none => 0
  | some record =>
    let expectedWeight := record.weight
    let expectedHeight := record.height
    let weightDeviation := jsAbs (inputWeight - expectedWeight) / expectedWeight * 100
    let averageDeviation :=
      match inputHeight with
      | none => weightDeviation
      | some ih =>
        (weightDeviation + jsAbs (ih - expectedHeight) / expectedHeight * 100) / 2
    jsRound (max 0 (devToCloseness averageDeviation))

/-- `getClosenessLabel(closeness)`. -/
def getClosenessLabel (closeness : ℤ) : String :=
  if 90 ≤ closeness then "Excellent match"
  else if 75 ≤ closeness then "Very close"
  else if 60 ≤ closeness then "Close match"
  else if 40 ≤ closeness then "Moderate"
  else "Some difference"

/-- The value of `formatAge(age, unit)`: `Newborn` for 0 months,
otherwise a month or year label carrying the age (the singular/plural
string rendering and i18n template filling are presentation only). -/
inductive AgeLabel
  | newborn
  | months (value : ℚ)
  | years (value : ℚ)
deriving DecidableEq, Repr

/-- `formatAge(age, unit)`. -/
def formatAge (age : ℚ) (unit : AgeUnit) : AgeLabel :=
  match unit with
  | .MONTH => if age = 0 then .newborn else .months age
  | .YEAR => .years age

/-- `x || null` applied to a number: `0` (and `NaN`, not modelled) is
falsy and becomes `null`. -/
def jsOrNullQ (x : Option ℚ) : Option ℚ :=
  match x with
  | none => none
  | some q => if q = 0 then none else some q

/-- `x || null` applied to a string: the empty string is falsy. -/
def jsOrNullS (x : Option String) : Option String :=
  match x with
  | none => none
  | some s => if s = "" then none else some s

/-- `inputData` as consumed by `formatResult`. -/
structure InputData where
  gender : Gender
  weight : ℚ
  height : Option ℚ
  age : Option String
deriving DecidableEq, Repr

/-- The `input` sub-object produced by `formatResult`. -/
structure InputEcho where
  gender : String
  weight : ℚ
  height : Option ℚ
  age : Option String
deriving DecidableEq, Repr

/-- The `ageMatched`/`weightMatched` sub-objects produced by
`formatResult` (the `ageType` pass-through field of the JSON records is
not modelled, as nothing in the engine reads it). -/
structure MatchedEcho where
  gender : String
  weight : ℚ
  height : ℚ
  age : ℚ
  ageUnit : AgeUnit
  ageLabel : AgeLabel
deriving DecidableEq, Repr

/-- The record → display sub-object projection used twice by
`formatResult`. -/
def matchedEchoOf (record : GrowthRecord) : MatchedEcho :=
  { gender := if record.gender == .BOY then "Boy" else "Girl"
    weight := record.weight
    height := record.height
    age := record.age
    ageUnit := record.ageUnit
    ageLabel := formatAge record.age record.ageUnit }

/-- The object returned by `formatResult`. -/
structure FormattedResult where
  input : InputEcho
  ageMatched : MatchedEcho
  weightMatched : MatchedEcho
  closeness : ℤ
  closenessLabel : String
deriving DecidableEq, Repr

/-- `formatResult(inputData, ageMatchedRecord, weightMatchedRecord)`. -/
def formatResult (inputData : InputData) (ageMatchedRecord : GrowthRecord)
    (weightMatchedRecord : GrowthRecord) : FormattedResult :=
  let closeness := calculateCloseness inputData.weight (jsOrNullQ inputData.height)
    (some ageMatchedRecord)
  { input :=
      { gender := if inputData.gender == .BOY then "Boy" else "Girl"
        weight := inputData.weight
        height := jsOrNullQ inputData.height
        age := jsOrNullS inputData.age }
    ageMatched := matchedEchoOf ageMatchedRecord
    weightMatched := matchedEchoOf weightMatchedRecord
    closeness := closeness
    closenessLabel := getClosenessLabel closeness }

/-- The JavaScript value arriving in `validateInput`'s `weight`
parameter: `null`/`undefined`, `NaN`, or a number. -/
inductive WeightField
  | null
  | nan
  | num (value : ℚ)
deriving DecidableEq, Repr

/-- The JavaScript value arriving in `validateInput`'s `height`
parameter: `null`, the empty string, `NaN`, or a number. -/
inductive HeightField
  | null
  | emptyStr
  | nan
  | num (value : ℚ)
deriving DecidableEq, Repr

/-- `validateInput(gender, weight, height, age)`.  `gender` and `age`
are strings whose only falsiness test is `!x` (a `null` argument is
modelled as the empty string); `!weight` is true for `null`, `NaN` and
`0`. -/
def validateInput (gender : String) (weight : WeightField) (height : HeightField)
    (age : String) : List String :=
  let genderErrors := if gender = "" then ["Gender is required"] else []
  let weightErrors :=
    match weight with
    | .null => ["Weight is required"]
    | .nan => ["Weight is required"]
    | .num v =>
      if v = 0 then ["Weight is required"]
      else if v < 0.01 ∨ 150 < v then ["Weight must be between 0.01 and 150 kg"]
      else []
  let ageErrors := if age = "" then ["Age is required"] else []
  let heightErrors :=
    match height with
    | .null => []
    | .emptyStr => []
    | .nan => ["Height must be a valid number"]
    | .num v =>
      if v < 0.01 ∨ 220 < v then ["Height must be between 0.01 and 220 cm"]
      else []
  genderErrors ++ weightErrors ++ ageErrors ++ heightErrors

/-- `determineGrowthStage(age, ageUnit)` of the z-score module. -/
def determineGrowthStage (age : ℚ) (ageUnit : AgeUnit) : ZStage :=
  let ageMonths := convertToMonths age ageUnit
  if ageMonths < 24 then .infant
  else if ageMonths / 12 < 10 then .child
  else .adolescent

/-- `calculateBMI(weight, height)`. -/
def calculateBMI (weight : ℚ) (height : ℚ) : ℚ :=
  let heightMeters := height / 100
  weight / (heightMeters * heightMeters)

/-- The metric selector passed to `getZScoreCurves` (source strings
`'weight'`, `'height'`, `'bmi'`). -/
inductive Metric
  | weight
  | height
  | bmi
deriving DecidableEq, Repr

/-- The five curve values of one z-score property (object keys `-2`,
`-1`, `0`, `1`, `2`). -/
structure ZValues where
  zm2 : ℚ
  zm1 : ℚ
  z0 : ℚ
  zp1 : ℚ
  zp2 : ℚ
deriving DecidableEq, Repr

/-- One age/gender entry of a z-score dataset partition; the per-metric
curve objects and `medianHeight` may be absent. -/
structure ZScoreEntry where
  age : ℚ
  gender : Gender
  weightZ : Option ZValues
  heightZ : Option ZValues
  bmiZ : Option ZValues
  medianHeight : Option ℚ
deriving DecidableEq, Repr

/-- `data/z-score.json` as consumed by the engine: one partition per
growth stage (the adolescent partition is a nested array indexed with
`[0]`), plus the truthiness of each `strategy[stage]` entry. -/
structure ZScoreData where
  infant : List ZScoreEntry
  child : List ZScoreEntry
  adolescent : List (List ZScoreEntry)
  strategyInfant : Bool
  strategyChild : Bool
  strategyAdolescent : Bool
deriving DecidableEq, Repr

/-- `getMedianHeightForAge(gender, age, ageUnit)` over an explicit
`zScoreData`. -/
def getMedianHeightForAge (zScoreData : Option ZScoreData) (gender : Gender)
    (age : ℚ) (ageUnit : AgeUnit) : Option ℚ :=
  match zScoreData with
  | none => none
  | some zd =>
    match zd.adolescent.head? with
    | none => none
    | some adolescentData =>
      let ageYears := match ageUnit with
        | .MONTH => age / 12
        | .YEAR => age
      match adolescentData.find? (fun record =>
          record.age == (jsRound ageYears : ℚ) && record.gender == gender) with
      | none => none
      | some entry => entry.medianHeight

/-- `getZScoreCurves(gender, age, ageUnit, metric)` over an explicit
`zScoreData`.  A `none` result is the source's empty-object return.
Note: `ageValue` is the raw age for MONTH-unit queries and
`Math.round(age)` for YEAR-unit queries, for every growth stage — the
source's `recordAge = ageUnit === 'MONTH' ? record.age : record.age`
is `record.age` in both branches.  (On an empty adolescent partition
the source would throw on `dataSource[0].find`; that unreachable path
is modelled as the empty result.) -/
def getZScoreCurves (zScoreData : Option ZScoreData) (gender : Gender) (age : ℚ)
    (ageUnit : AgeUnit) (metric : Metric) : Option ZValues :=
  match zScoreData with
  | none => none
  | some zd =>
    let growthStage := determineGrowthStage age ageUnit
    let strategy := match growthStage with
      | .infant => zd.strategyInfant
      | .child => zd.strategyChild
      | .adolescent => zd.strategyAdolescent
    if strategy = false then none
    else
      let dataSource : List ZScoreEntry :=
        match growthStage with
        | .infant => zd.infant
        | .child => zd.child
        | .adolescent => zd.adolescent.headD []
      let ageValue : ℚ := match ageUnit with
        | .MONTH => age
        | .YEAR => (jsRound age : ℚ)
      match dataSource.find? (fun record =>
          record.age == ageValue && record.gender == gender) with
      | none => none
      | some zScoreEntry =>
        match growthStage, metric with
        | .adolescent, _ => zScoreEntry.bmiZ
        | _, .weight => zScoreEntry.weightZ
        | _, .height => zScoreEntry.heightZ
        | _, .bmi => none

theorem jsAbs_eq_abs (q : ℚ) : jsAbs q = |q| := by
  unfold jsAbs
  split
  · exact (abs_of_neg (by assumption)).symm
  · exact (abs_of_nonneg (le_of_not_lt (by assumption))).symm

theorem jsAbs_nonneg (q : ℚ) : 0 ≤ jsAbs q := by
  rw [jsAbs_eq_abs]; exact abs_nonneg q

/-- Helper for C1: with unit `MONTH`, any raw age of at least 24 passes
both the `months < 24` guard (negatively) and the raw-age `age >= 6`
adolescent test. -/
theorem calculateGrowthStage_month_ge24 (a : ℚ) (h : 24 ≤ a) :
    calculateGrowthStage a .MONTH = .ADOLESCENT := by
  simp only [calculateGrowthStage, convertToMonths]
  rw [if_neg (by linarith), if_pos (by linarith)]

/-- C1: the claim states that `calculateGrowthStage(72, MONTH)` returns a
stage other than `ADOLESCENT`.  It does not: the raw-age test `age >= 6`
sees the value 72, so the function returns `ADOLESCENT`. -/
theorem c1_counterexample :
    calculateGrowthStage 72 .MONTH = .ADOLESCENT :=
  calculateGrowthStage_month_ge24 72 (by norm_num)

/-- C1 (amended): under rule (a) as implemented by `calculateGrowthStage`,
an input of age=72 with unit=MONTH IS classified `ADOLESCENT`; indeed
every month-denominated age of at least 24 months is classified
`ADOLESCENT`, because once `months < 24` fails and the unit is `MONTH`
the raw-age test `age >= 6` is automatically true. -/
theorem c1_amended (a : ℚ) (h : 24 ≤ a) :
    calculateGrowthStage a .MONTH = .ADOLESCENT :=
  calculateGrowthStage_month_ge24 a h

/-- Witness for C1 (amended), at the claim's own input age=72, MONTH. -/
theorem c1_amended_witness :
    (24 : ℚ) ≤ 72 ∧ calculateGrowthStage 72 .MONTH = .ADOLESCENT :=
  ⟨by norm_num, c1_amended 72 (by norm_num)⟩

theorem jsRound_eq_intFloor (q : ℚ) : jsRound q = ⌊q + 1/2⌋ := by
  rw [jsRound, Rat.floor_def', ← Rat.floor_def]

/-- C5 helper: the deviation→score mapping is monotonically
non-increasing. -/
theorem devToCloseness_antitone (dev1 dev2 : ℚ) (h : dev1 < dev2) :
    devToCloseness dev2 ≤ devToCloseness dev1 := by
  unfold devToCloseness
  split_ifs <;> norm_num <;> linarith

/-- C5: the deviation-to-score mapping inside `calculateCloseness` is
monotonically non-increasing (for `dev1 < dev2` the score of `dev1` is
at least the score of `dev2`), and it is continuous at the breakpoints:
`score(10) = 100`, `score(20) = 90`, `score(30) = 75`, `score(40) = 60`. -/
theorem c5_theorem :
    (∀ dev1 dev2 : ℚ, dev1 < dev2 → devToCloseness dev2 ≤ devToCloseness dev1) ∧
    devToCloseness 10 = 100 ∧ devToCloseness 20 = 90 ∧
    devToCloseness 30 = 75 ∧ devToCloseness 40 = 60 := by
  refine ⟨devToCloseness_antitone, ?_, ?_, ?_, ?_⟩ <;> norm_num [devToCloseness]

/-- Witness for C5 at the concrete pair `15 < 25` (and the closed
breakpoint equalities). -/
theorem c5_witness :
    (15 : ℚ) < 25 ∧ devToCloseness 25 ≤ devToCloseness 15 ∧ devToCloseness 10 = 100 :=
  ⟨by norm_num, c5_theorem.1 15 25 (by norm_num), c5_theorem.2.1⟩

/-- C10: a falsy height (`0`, or an absent height) at `formatResult`'s
interface is treated as absent: the closeness score equals the score of
the same input with no height, and both equal the weight-only
`calculateCloseness`. -/
theorem c10_theorem (gender : Gender) (w : ℚ) (ageStr : Option String)
    (amr wmr : GrowthRecord) :
    (formatResult ⟨gender, w, some 0, ageStr⟩ amr wmr).closeness =
      (formatResult ⟨gender, w, none, ageStr⟩ amr wmr).closeness ∧
    (formatResult ⟨gender, w, some 0, ageStr⟩ amr wmr).closeness =
      calculateCloseness w none (some amr) := by
  constructor <;> simp [formatResult, jsOrNullQ]

/-- C9: `validateInput` returns an empty error list iff gender is
non-empty, the weight is a number within `[0.01, 150]`, the age is
non-empty, and the height is `null`/empty or a number within
`[0.01, 220]`; and each violated rule contributes its own message to
the list (the falsy weight `0` reports `'Weight is required'`, as the
source's `!weight` test subsumes the range test there). -/
theorem c9_theorem (gender : String) (weight : WeightField) (height : HeightField)
    (age : String) :
    (validateInput gender weight height age = [] ↔
      gender ≠ "" ∧
      (∃ v, weight = .num v ∧ 0.01 ≤ v ∧ v ≤ 150) ∧
      age ≠ "" ∧
      (height = .null ∨ height = .emptyStr ∨
        ∃ v, height = .num v ∧ 0.01 ≤ v ∧ v ≤ 220)) ∧
    (gender = "" → "Gender is required" ∈ validateInput gender weight height age) ∧
    ((weight = .null ∨ weight = .nan ∨ weight = .num 0) →
      "Weight is required" ∈ validateInput gender weight height age) ∧
    (∀ v, weight = .num v → v ≠ 0 → (v < 0.01 ∨ 150 < v) →
      "Weight must be between 0.01 and 150 kg" ∈ validateInput gender weight height age) ∧
    (age = "" → "Age is required" ∈ validateInput gender weight height age) ∧
    (height = .nan → "Height must be a valid number" ∈ validateInput gender weight height age) ∧
    (∀ v, height = .num v → (v < 0.01 ∨ 220 < v) →
      "Height must be between 0.01 and 220 cm" ∈ validateInput gender weight height age) := by
  unfold validateInput
  refine ⟨?_, ?_, ?_, ?_, ?_, ?_, ?_⟩
  · cases weight <;> cases height <;>
      simp_all <;> split_ifs <;> simp_all <;> intros <;>
      (try casesm* _ ∨ _) <;> first | tauto | linarith
  · intro h; simp [h]
  · rintro (rfl | rfl | rfl) <;> simp
  · rintro v rfl hv0 hrange
    simp [hv0, if_pos hrange]
  · intro h; simp [h]
  · rintro rfl; simp
  · rintro v rfl hrange
    simp [if_pos hrange]

/-- Witness for C9: a fully valid input yields no errors; a missing
gender and an out-of-range weight each contribute their message. -/
theorem c9_witness :
    validateInput "BOY" (WeightField.num 50) HeightField.null "6-MONTH" = [] ∧
    "Gender is required" ∈ validateInput "" (WeightField.num 50) HeightField.null "6-MONTH" ∧
    "Weight must be between 0.01 and 150 kg" ∈
      validateInput "BOY" (WeightField.num 200) HeightField.null "6-MONTH" := by
  refine ⟨( c9_theorem "BOY" _ _ "6-MONTH").1.mpr
      ⟨by simp, ⟨50, rfl, by norm_num, by norm_num⟩, by simp, Or.inl rfl⟩,
    ( c9_theorem "" _ _ "6-MONTH").2.1 rfl,
    ( c9_theorem "BOY" _ _ "6-MONTH").2.2.2.1 200 rfl (by norm_num) (Or.inr (by norm_num))⟩

/-- C2: the claim separates `DatasetNotLoaded` from a loaded-but-empty
dataset.  The source does not: all three resolvers test
`!childData || childData.length === 0` and throw the
`'Child data not loaded'` error for a loaded empty list as well, so a
loaded empty dataset (which trivially has zero records for any gender)
raises the `DatasetNotLoaded` class, not `NoCandidatesForGender`. -/
theorem c2_counterexample :
    findMatchByAge (some []) .BOY 6 .MONTH = .error .dataNotLoaded ∧
    findMatchByAge (some []) .BOY 6 .MONTH ≠ .error (.noDataForGender .BOY) ∧
    findMatchByWeightAndHeight (some []) .BOY 6 none = .error .dataNotLoaded ∧
    findClosestMatch (some []) .BOY 6 none none = .error .dataNotLoaded := by
  refine ⟨rfl, ?_, rfl, rfl⟩
  simp [findMatchByAge]

/-- C2 (amended): each resolver raises `NoCandidatesForGender` exactly
when the dataset is loaded AND non-empty AND contains zero records for
the requested gender; `DatasetNotLoaded` is raised both when the
provider is not yet populated and when it is populated with an empty
list; and a non-empty gender partition always yields a record. -/
theorem c2_amended (data : List GrowthRecord) (g : Gender) (a w : ℚ) (u : AgeUnit)
    (ao ho : Option ℚ) :
    (findMatchByAge none g a u = .error .dataNotLoaded ∧
      findMatchByWeightAndHeight none g w ho = .error .dataNotLoaded ∧
      findClosestMatch none g w ao ho = .error .dataNotLoaded) ∧
    (findMatchByAge (some []) g a u = .error .dataNotLoaded ∧
      findMatchByWeightAndHeight (some []) g w ho = .error .dataNotLoaded ∧
      findClosestMatch (some []) g w ao ho = .error .dataNotLoaded) ∧
    (data ≠ [] → genderCandidates data g = [] →
      findMatchByAge (some data) g a u = .error (.noDataForGender g) ∧
      findMatchByWeightAndHeight (some data) g w ho = .error (.noDataForGender g) ∧
      findClosestMatch (some data) g w ao ho = .error (.noDataForGender g)) ∧
    (data ≠ [] → genderCandidates data g ≠ [] →
      (∃ r, findMatchByAge (some data) g a u = .ok r) ∧
      (∃ r, findMatchByWeightAndHeight (some data) g w ho = .ok r) ∧
      (∃ r, findClosestMatch (some data) g w ao ho = .ok r)) := by
  refine ⟨⟨rfl, rfl, rfl⟩, ⟨rfl, ?_, ?_⟩, ?_, ?_⟩
  · cases ho <;> rfl
  · cases ao <;> cases ho <;> rfl
  · intro hne hcand
    refine ⟨?_, ?_, ?_⟩ <;>
      simp [findMatchByAge, findMatchByWeightAndHeight, findClosestMatch, hne, hcand]
  · intro hne hcand
    rcases hc : genderCandidates data g with _ | ⟨c0, rest⟩
    · exact absurd hc hcand
    refine ⟨?_, ?_, ?_⟩
    · simp only [findMatchByAge, if_neg hne, hc]
      exact ⟨_, rfl⟩
    · rcases ho with _ | hv <;>
        simp only [findMatchByWeightAndHeight, if_neg hne, hc] <;>
        (try split_ifs) <;> exact ⟨_, rfl⟩
    · rcases ao with _ | av <;> rcases ho with _ | hv <;>
        simp only [findClosestMatch, if_neg hne, hc] <;>
        split_ifs <;> exact ⟨_, rfl⟩

/-- A sample WHO reference record used by concrete witnesses. -/
def sampleBoy : GrowthRecord := ⟨.BOY, 6, .MONTH, 7.3, 65.9⟩

/-- Witness for C2 (amended) on a one-record BOY dataset: querying GIRL
raises the gender error from all three resolvers, querying BOY yields a
record. -/
theorem c2_amended_witness :
    findMatchByAge (some [sampleBoy]) .GIRL 6 .MONTH = .error (.noDataForGender .GIRL) ∧
    findMatchByWeightAndHeight (some [sampleBoy]) .GIRL 7 none = .error (.noDataForGender .GIRL) ∧
    findClosestMatch (some [sampleBoy]) .GIRL 7 none none = .error (.noDataForGender .GIRL) ∧
    (∃ r, findMatchByAge (some [sampleBoy]) .BOY 6 .MONTH = .ok r) := by
  have hemp : genderCandidates [sampleBoy] .GIRL = [] := rfl
  have hb : genderCandidates [sampleBoy] .BOY = [sampleBoy] := rfl
  have hful : genderCandidates [sampleBoy] .BOY ≠ [] := by rw [hb]; simp
  have h := (c2_amended [sampleBoy] .GIRL 6 7 .MONTH none none).2.2.1
    (by norm_num) hemp
  have h2 := ((c2_amended [sampleBoy] .BOY 6 7 .MONTH none none).2.2.2
    (by norm_num) hful).1
  exact ⟨h.1, h.2.1, h.2.2, h2⟩

/-- Each scan step either keeps the current closest record or switches
to the record being visited; hence a fold of such steps stays inside
the scanned list (or on its start record). -/
theorem foldl_fst_mem (step : (GrowthRecord × ℚ) → GrowthRecord → GrowthRecord × ℚ)
    (hstep : ∀ st r, (step st r).1 = st.1 ∨ (step st r).1 = r) :
    ∀ (l : List GrowthRecord) (st : GrowthRecord × ℚ),
      (List.foldl step st l).1 = st.1 ∨ (List.foldl step st l).1 ∈ l := by
  intro l
  induction l with
  | nil => intro st; exact Or.inl rfl
  | cons x t ih =>
    intro st
    rw [List.foldl_cons]
    rcases ih (step st x) with h | h
    · rcases hstep st x with h2 | h2
      · exact Or.inl (h.trans h2)
      · exact Or.inr (by rw [h, h2]; exact List.mem_cons_self x t)
    · exact Or.inr (List.mem_cons_of_mem x h)

theorem ageStep_fst (m : ℚ) (st : GrowthRecord × ℚ) (r : GrowthRecord) :
    (ageStep m st r).1 = st.1 ∨ (ageStep m st r).1 = r := by
  simp only [ageStep]
  split
  · exact Or.inr rfl
  split
  · split
    · exact Or.inr rfl
    · exact Or.inl rfl
  · exact Or.inl rfl

theorem weightStep_fst (w : ℚ) (st : GrowthRecord × ℚ) (r : GrowthRecord) :
    (weightStep w st r).1 = st.1 ∨ (weightStep w st r).1 = r := by
  simp only [weightStep]
  split
  · exact Or.inr rfl
  split
  · split
    · exact Or.inr rfl
    · exact Or.inl rfl
  · exact Or.inl rfl

theorem closestInGroupStep_fst (metric : GrowthRecord → ℚ) (v : ℚ) (tb : Bool)
    (st : GrowthRecord × ℚ) (r : GrowthRecord) :
    (closestInGroupStep metric v tb st r).1 = st.1 ∨
      (closestInGroupStep metric v tb st r).1 = r := by
  simp only [closestInGroupStep]
  split
  · exact Or.inr rfl
  split
  · split
    · exact Or.inr rfl
    · exact Or.inl rfl
  · exact Or.inl rfl

theorem weightScan_mem_cons (w : ℚ) (c0 : GrowthRecord) (rest : List GrowthRecord) :
    weightScan w c0 (c0 :: rest) ∈ c0 :: rest := by
  unfold weightScan
  rcases foldl_fst_mem _ (weightStep_fst w) (c0 :: rest) (c0, jsAbs (c0.weight - w))
    with h | h
  · rw [h]; exact List.mem_cons_self _ _
  · exact h

theorem findClosestInGroup_mem (group : List GrowthRecord) (metric : GrowthRecord → ℚ)
    (v : ℚ) (tb : Bool) (r : GrowthRecord)
    (h : findClosestInGroup group metric v tb = some r) : r ∈ group := by
  match group with
  | [] => cases h
  | g0 :: rest =>
    simp only [findClosestInGroup, Option.some.injEq] at h
    rcases foldl_fst_mem _ (closestInGroupStep_fst metric v tb) (g0 :: rest)
      (g0, jsAbs (metric g0 - v)) with h2 | h2
    · rw [← h, h2]; exact List.mem_cons_self _ _
    · rw [← h]; exact h2

theorem mem_genderCandidates (data : List GrowthRecord) (g : Gender) (x : GrowthRecord) :
    x ∈ genderCandidates data g ↔ x ∈ data ∧ x.gender = g := by
  simp [genderCandidates, List.mem_filter]

theorem findMatchByAge_mem (data : List GrowthRecord) (g : Gender) (a : ℚ) (u : AgeUnit)
    (r : GrowthRecord) (h : findMatchByAge (some data) g a u = .ok r) :
    r ∈ genderCandidates data g := by
  by_cases hd : data = []
  · rw [hd] at h; cases h
  rcases hc : genderCandidates data g with _ | ⟨c0, rest⟩
  · simp only [findMatchByAge, if_neg hd, hc] at h
    cases h
  simp only [findMatchByAge, if_neg hd, hc, Except.ok.injEq] at h
  rw [← h]
  rcases foldl_fst_mem _ (ageStep_fst (convertToMonths a u)) (c0 :: rest)
      (c0, jsAbs (convertToMonths c0.age c0.ageUnit - convertToMonths a u)) with h2 | h2
  · rw [h2]; exact List.mem_cons_self _ _
  · exact h2

theorem weightGroupAround_subset (cands : List GrowthRecord) (c : GrowthRecord)
    (x : GrowthRecord) (h : x ∈ weightGroupAround cands c) : x ∈ cands :=
  List.mem_of_mem_filter h

theorem findMatchByWeightAndHeight_mem (data : List GrowthRecord) (g : Gender)
    (w : ℚ) (ho : Option ℚ) (r : GrowthRecord)
    (h : findMatchByWeightAndHeight (some data) g w ho = .ok r) :
    r ∈ genderCandidates data g := by
  by_cases hd : data = []
  · rw [hd] at h; cases h
  rcases hc : genderCandidates data g with _ | ⟨c0, rest⟩
  · simp only [findMatchByWeightAndHeight, if_neg hd, hc] at h
    cases h
  rcases ho with _ | hv
  · simp only [findMatchByWeightAndHeight, if_neg hd, hc, Except.ok.injEq] at h
    rw [← h]; exact weightScan_mem_cons w c0 rest
  simp only [findMatchByWeightAndHeight, if_neg hd, hc] at h
  split_ifs at h with hlen
  · simp only [Except.ok.injEq] at h
    rcases hg : findClosestInGroup (weightGroupAround (c0 :: rest)
        (weightScan w c0 (c0 :: rest))) (fun r => r.height) hv false with _ | x
    · rw [hg] at h; simp at h; rw [← h]; exact weightScan_mem_cons w c0 rest
    · rw [hg] at h; simp at h
      rw [← h]
      exact weightGroupAround_subset _ _ _ (findClosestInGroup_mem _ _ _ _ _ hg)
  · simp only [Except.ok.injEq] at h
    rw [← h]; exact weightScan_mem_cons w c0 rest

theorem findClosestMatch_mem (data : List GrowthRecord) (g : Gender)
    (w : ℚ) (ao ho : Option ℚ) (r : GrowthRecord)
    (h : findClosestMatch (some data) g w ao ho = .ok r) :
    r ∈ genderCandidates data g := by
  by_cases hd : data = []
  · rw [hd] at h; cases h
  rcases hc : genderCandidates data g with _ | ⟨c0, rest⟩
  · simp only [findClosestMatch, if_neg hd, hc] at h
    cases h
  simp only [findClosestMatch, if_neg hd, hc] at h
  split_ifs at h with h0 hlen
  · simp only [Except.ok.injEq] at h
    rw [← h]; exact weightScan_mem_cons w c0 rest
  · rcases ao with _ | av
    · rcases ho with _ | hv
      · simp only [Except.ok.injEq] at h
        rw [← h]; exact weightScan_mem_cons w c0 rest
      · simp only [Except.ok.injEq] at h
        rcases hg : findClosestInGroup (weightGroupAround (c0 :: rest)
            (weightScan w c0 (c0 :: rest))) (fun r => r.height) hv false with _ | x
        · rw [hg] at h; simp at h; rw [← h]; exact weightScan_mem_cons w c0 rest
        · rw [hg] at h; simp at h
          rw [← h]
          exact weightGroupAround_subset _ _ _ (findClosestInGroup_mem _ _ _ _ _ hg)
    · simp only [Except.ok.injEq] at h
      rcases hg : findClosestInGroup (weightGroupAround (c0 :: rest)
          (weightScan w c0 (c0 :: rest))) (fun r => r.age) av true with _ | x
      · rw [hg] at h; simp at h; rw [← h]; exact weightScan_mem_cons w c0 rest
      · rw [hg] at h; simp at h
        rw [← h]
        exact weightGroupAround_subset _ _ _ (findClosestInGroup_mem _ _ _ _ _ hg)
  · simp only [Except.ok.injEq] at h
    rw [← h]; exact weightScan_mem_cons w c0 rest

/-- C8: whenever any of the three resolvers returns a record rather
than throwing, that record belongs to the loaded dataset and carries
the requested gender. -/
theorem c8_theorem (data : List GrowthRecord) (g : Gender) (a w : ℚ) (u : AgeUnit)
    (ao ho : Option ℚ) (r1 r2 r3 : GrowthRecord) :
    (findMatchByAge (some data) g a u = .ok r1 → r1 ∈ data ∧ r1.gender = g) ∧
    (findMatchByWeightAndHeight (some data) g w ho = .ok r2 → r2 ∈ data ∧ r2.gender = g) ∧
    (findClosestMatch (some data) g w ao ho = .ok r3 → r3 ∈ data ∧ r3.gender = g) :=
  ⟨fun h => (mem_genderCandidates data g r1).mp (findMatchByAge_mem data g a u r1 h),
   fun h => (mem_genderCandidates data g r2).mp
     (findMatchByWeightAndHeight_mem data g w ho r2 h),
   fun h => (mem_genderCandidates data g r3).mp
     (findClosestMatch_mem data g w ao ho r3 h)⟩

/-- Concrete resolver runs used by the C8 witness. -/
theorem sampleBoy_resolver_runs :
    findMatchByAge (some [sampleBoy]) .BOY 6 .MONTH = .ok sampleBoy ∧
    findMatchByWeightAndHeight (some [sampleBoy]) .BOY 7 none = .ok sampleBoy ∧
    findClosestMatch (some [sampleBoy]) .BOY 7 none none = .ok sampleBoy := by
  refine ⟨?_, ?_, ?_⟩ <;>
    norm_num [findMatchByAge, findMatchByWeightAndHeight, findClosestMatch,
      genderCandidates, List.filter, sampleBoy, List.foldl, ageStep, weightStep,
      weightScan, convertToMonths, jsAbs]

/-- Witness for C8 at a concrete one-record dataset. -/
theorem c8_witness :
    sampleBoy ∈ [sampleBoy] ∧ sampleBoy.gender = .BOY := by
  exact (c8_theorem [sampleBoy] .BOY 6 7 .MONTH none none sampleBoy sampleBoy sampleBoy).1
    sampleBoy_resolver_runs.1

/-- C7: when the gender-filtered candidate list consists of exactly two
records equidistant in age-in-months from the query but with distinct
ages-in-months, `findMatchByAge` returns the record with the larger
age-in-months.  Since `a` and `b` range over both assignments of the
pair, the statement covers both input orderings. -/
theorem c7_theorem (data : List GrowthRecord) (g : Gender) (age : ℚ) (u : AgeUnit)
    (a b : GrowthRecord)
    (hfil : genderCandidates data g = [a, b])
    (heq : jsAbs (convertToMonths a.age a.ageUnit - convertToMonths age u) =
      jsAbs (convertToMonths b.age b.ageUnit - convertToMonths age u))
    (hne : convertToMonths a.age a.ageUnit ≠ convertToMonths b.age b.ageUnit) :
    findMatchByAge (some data) g age u =
      .ok (if convertToMonths a.age a.ageUnit < convertToMonths b.age b.ageUnit
        then b else a) := by
  have hd : data ≠ [] := by
    intro h
    rw [h] at hfil
    simp [genderCandidates] at hfil
  have h1 : ageStep (convertToMonths age u)
      (a, jsAbs (convertToMonths a.age a.ageUnit - convertToMonths age u)) a =
      (a, jsAbs (convertToMonths a.age a.ageUnit - convertToMonths age u)) := by
    simp only [ageStep]
    split_ifs <;> rfl
  have h2 : ageStep (convertToMonths age u)
      (a, jsAbs (convertToMonths a.age a.ageUnit - convertToMonths age u)) b =
      (if convertToMonths a.age a.ageUnit < convertToMonths b.age b.ageUnit then b
        else a,
       jsAbs (convertToMonths a.age a.ageUnit - convertToMonths age u)) := by
    simp only [ageStep, ← heq]
    split_ifs <;> first | rfl | (exfalso; simp_all)
  simp only [findMatchByAge, if_neg hd, hfil, List.foldl_cons, List.foldl_nil, h1, h2]

/-- Two BOY records 2 months either side of a 6-month query, used by the
C7 witness. -/
def c7recA : GrowthRecord := ⟨.BOY, 4, .MONTH, 6, 60⟩

/-- See `c7recA`. -/
def c7recB : GrowthRecord := ⟨.BOY, 8, .MONTH, 13/2, 62⟩

/-- Witness for C7: both orderings of the equidistant pair resolve to
the record with the larger age-in-months. -/
theorem c7_witness :
    findMatchByAge (some [c7recA, c7recB]) .BOY 6 .MONTH = .ok c7recB ∧
    findMatchByAge (some [c7recB, c7recA]) .BOY 6 .MONTH = .ok c7recB := by
  have hab : convertToMonths c7recA.age c7recA.ageUnit <
      convertToMonths c7recB.age c7recB.ageUnit := by
    norm_num [convertToMonths, c7recA, c7recB]
  have h1 := c7_theorem [c7recA, c7recB] .BOY 6 .MONTH c7recA c7recB rfl
    (by norm_num [jsAbs, convertToMonths, c7recA, c7recB])
    (ne_of_lt hab)
  have h2 := c7_theorem [c7recB, c7recA] .BOY 6 .MONTH c7recB c7recA rfl
    (by norm_num [jsAbs, convertToMonths, c7recA, c7recB])
    (ne_of_gt hab)
  rw [if_pos hab] at h1
  rw [if_neg (not_lt_of_gt hab)] at h2
  exact ⟨h1, h2⟩

theorem jsAbs_eq_zero_iff (q : ℚ) : jsAbs q = 0 ↔ q = 0 := by
  rw [jsAbs_eq_abs]; exact abs_eq_zero

/-- Once `findMatchByAge`'s scan holds a record at age distance zero,
the remaining records cannot displace it: a strictly smaller distance
is impossible and a tie at distance zero means equal ages-in-months,
failing the higher-age tie-break. -/
theorem ageScan_absorb (m : ℚ) (r : GrowthRecord)
    (hr0 : jsAbs (convertToMonths r.age r.ageUnit - m) = 0) :
    ∀ l : List GrowthRecord, List.foldl (ageStep m) (r, 0) l = (r, 0) := by
  intro l
  induction l with
  | nil => rfl
  | cons x t ih =>
    rw [List.foldl_cons]
    have hstep : ageStep m (r, 0) x = (r, 0) := by
      simp only [ageStep]
      rw [if_neg (not_lt.mpr (jsAbs_nonneg _))]
      by_cases hd : jsAbs (convertToMonths x.age x.ageUnit - m) = 0
      · have hmx : convertToMonths x.age x.ageUnit = m :=
          sub_eq_zero.mp ((jsAbs_eq_zero_iff _).mp hd)
        have hmr : convertToMonths r.age r.ageUnit = m :=
          sub_eq_zero.mp ((jsAbs_eq_zero_iff _).mp hr0)
        rw [if_pos hd, if_neg (by rw [hmr, hmx]; exact lt_irrefl m)]
      · rw [if_neg hd]
    rw [hstep]
    exact ih

/-- If the unique gender candidate at age distance zero is `r`, the scan
reaches and keeps it from any invariant-respecting start state. -/
theorem ageScan_reaches (m : ℚ) (r : GrowthRecord) (cand : List GrowthRecord)
    (hr0 : jsAbs (convertToMonths r.age r.ageUnit - m) = 0)
    (huniq : ∀ x ∈ cand, jsAbs (convertToMonths x.age x.ageUnit - m) = 0 → x = r) :
    ∀ (l : List GrowthRecord) (st : GrowthRecord × ℚ),
      (∀ x ∈ l, x ∈ cand) → st.1 ∈ cand →
      st.2 = jsAbs (convertToMonths st.1.age st.1.ageUnit - m) →
      r ∈ l →
      List.foldl (ageStep m) st l = (r, 0) := by
  intro l
  induction l with
  | nil =>
    intro st _ _ _ hrl
    cases hrl
  | cons x t ih =>
    intro st hsub hst1 hst2 hrl
    rw [List.foldl_cons]
    by_cases hxr : x = r
    · subst hxr
      have hstep : ageStep m st x = (x, 0) := by
        simp only [ageStep]
        by_cases hlt : jsAbs (convertToMonths x.age x.ageUnit - m) < st.2
        · rw [if_pos hlt, hr0]
        · rw [if_neg hlt]
          have h2 : st.2 ≤ 0 := hr0 ▸ not_lt.mp hlt
          have h3 : 0 ≤ st.2 := by rw [hst2]; exact jsAbs_nonneg _
          have h0 : st.2 = 0 := le_antisymm h2 h3
          have hst1r : st.1 = x := huniq st.1 hst1 (by rw [← hst2]; exact h0)
          rw [if_pos (by rw [hr0, h0]), if_neg (by rw [hst1r]; exact lt_irrefl _)]
          rw [Prod.ext_iff]
          exact ⟨hst1r, h0⟩
      rw [hstep]
      exact ageScan_absorb m x hr0 t
    · have hrt : r ∈ t := (List.mem_cons.mp hrl).resolve_left fun h => hxr h.symm
      refine ih (ageStep m st x) (fun y hy => hsub y (List.mem_cons_of_mem x hy))
        ?_ ?_ hrt
      · rcases ageStep_fst m st x with h | h
        · rw [h]; exact hst1
        · rw [h]; exact hsub x (List.mem_cons_self x t)
      · simp only [ageStep]
        split_ifs <;> simp_all

/-- C6: `findMatchByAge` is idempotent on dataset points — querying with
the exact gender/age/unit of a record `r` whose age-in-months is unique
among records of its gender returns `r` (distance zero beats every
nonzero distance, and no distinct record can tie at distance zero). -/
theorem c6_theorem (data : List GrowthRecord) (r : GrowthRecord)
    (hmem : r ∈ data)
    (huniq : ∀ s ∈ data, s.gender = r.gender →
      convertToMonths s.age s.ageUnit = convertToMonths r.age r.ageUnit → s = r) :
    findMatchByAge (some data) r.gender r.age r.ageUnit = .ok r := by
  have hd : data ≠ [] := by
    intro h
    rw [h] at hmem
    cases hmem
  have hrc : r ∈ genderCandidates data r.gender :=
    (mem_genderCandidates _ _ _).mpr ⟨hmem, rfl⟩
  rcases hc : genderCandidates data r.gender with _ | ⟨c0, rest⟩
  · rw [hc] at hrc; cases hrc
  have hr0 : jsAbs (convertToMonths r.age r.ageUnit -
      convertToMonths r.age r.ageUnit) = 0 := by
    rw [sub_self]
    simp [jsAbs]
  have huniq' : ∀ x ∈ genderCandidates data r.gender,
      jsAbs (convertToMonths x.age x.ageUnit - convertToMonths r.age r.ageUnit) = 0 →
      x = r := by
    intro x hx h0
    obtain ⟨hxd, hxg⟩ := (mem_genderCandidates _ _ _).mp hx
    exact huniq x hxd hxg (sub_eq_zero.mp ((jsAbs_eq_zero_iff _).mp h0))
  have hfold := ageScan_reaches (convertToMonths r.age r.ageUnit) r
    (genderCandidates data r.gender) hr0 huniq' (c0 :: rest)
    (c0, jsAbs (convertToMonths c0.age c0.ageUnit - convertToMonths r.age r.ageUnit))
    (fun x hx => hc ▸ hx) (by rw [hc]; exact List.mem_cons_self c0 rest) rfl
    (hc ▸ hrc)
  simp only [findMatchByAge, if_neg hd, hc, hfold]

/-- Two BOY records with distinct ages-in-months used by the C6
witness. -/
def c6recA : GrowthRecord := ⟨.BOY, 4, .MONTH, 6, 60⟩

/-- See `c6recA`. -/
def c6recB : GrowthRecord := ⟨.BOY, 8, .MONTH, 7, 65⟩

/-- Witness for C6: querying the exact age of `c6recA` returns it. -/
theorem c6_witness :
    findMatchByAge (some [c6recA, c6recB]) c6recA.gender c6recA.age c6recA.ageUnit =
      .ok c6recA := by
  apply c6_theorem
  · exact List.mem_cons_self _ _
  · intro s hs hg hm
    rcases List.mem_cons.mp hs with h | h
    · exact h
    · rcases List.mem_cons.mp h with h2 | h2
      · exfalso
        rw [h2] at hm
        norm_num [convertToMonths, c6recA, c6recB] at hm
      · cases h2

/-- The height-refinement scan of `findClosestInGroup` with no
tie-break key, folded from a start record. -/
def closestScanFrom (metric : GrowthRecord → ℚ) (v : ℚ) (c : GrowthRecord)
    (l : List GrowthRecord) : GrowthRecord :=
  (List.foldl (closestInGroupStep metric v false) (c, jsAbs (metric c - v)) l).1

theorem findClosestInGroup_false_eq (metric : GrowthRecord → ℚ) (v : ℚ)
    (g0 : GrowthRecord) (rest : List GrowthRecord) :
    findClosestInGroup (g0 :: rest) metric v false =
      some (closestScanFrom metric v g0 rest) := by
  have h : closestInGroupStep metric v false (g0, jsAbs (metric g0 - v)) g0 =
      (g0, jsAbs (metric g0 - v)) := by
    simp only [closestInGroupStep]
    rw [if_neg (lt_irrefl _), if_neg (by simp)]
  simp only [findClosestInGroup, List.foldl_cons, h, closestScanFrom]

/-- With no tie-break key the scan returns the first record attaining
the minimal metric distance: its distance is minimal over the whole
group and strictly below that of every record preceding it. -/
theorem closestScanFrom_spec (metric : GrowthRecord → ℚ) (v : ℚ) :
    ∀ (l : List GrowthRecord) (c : GrowthRecord),
      ∃ pre post,
        c :: l = pre ++ closestScanFrom metric v c l :: post ∧
        (∀ x ∈ pre,
          jsAbs (metric (closestScanFrom metric v c l) - v) < jsAbs (metric x - v)) ∧
        (∀ x ∈ c :: l,
          jsAbs (metric (closestScanFrom metric v c l) - v) ≤ jsAbs (metric x - v)) := by
  intro l
  induction l with
  | nil =>
    intro c
    refine ⟨[], [], rfl, by simp, ?_⟩
    intro x hx
    rcases List.mem_cons.mp hx with rfl | h
    · exact le_refl _
    · cases h
  | cons x t ih =>
    intro c
    by_cases hlt : jsAbs (metric x - v) < jsAbs (metric c - v)
    · have hstep : closestInGroupStep metric v false (c, jsAbs (metric c - v)) x =
          (x, jsAbs (metric x - v)) := by
        simp only [closestInGroupStep]
        rw [if_pos hlt]
      have heq : closestScanFrom metric v c (x :: t) = closestScanFrom metric v x t := by
        simp only [closestScanFrom, List.foldl_cons, hstep]
      obtain ⟨pre, post, hdecomp, hpre, hmin⟩ := ih x
      refine ⟨c :: pre, post, ?_, ?_, ?_⟩
      · rw [heq, List.cons_append, ← hdecomp]
      · intro y hy
        rcases List.mem_cons.mp hy with rfl | hy2
        · rw [heq]
          exact lt_of_le_of_lt (hmin x (List.mem_cons_self x t)) hlt
        · rw [heq]
          exact hpre y hy2
      · intro y hy
        rcases List.mem_cons.mp hy with rfl | hy2
        · rw [heq]
          exact le_of_lt (lt_of_le_of_lt (hmin x (List.mem_cons_self x t)) hlt)
        · rw [heq]
          exact hmin y hy2
    · have hstep : closestInGroupStep metric v false (c, jsAbs (metric c - v)) x =
          (c, jsAbs (metric c - v)) := by
        simp only [closestInGroupStep]
        rw [if_neg hlt, if_neg (by simp)]
      have heq : closestScanFrom metric v c (x :: t) = closestScanFrom metric v c t := by
        simp only [closestScanFrom, List.foldl_cons, hstep]
      obtain ⟨pre, post, hdecomp, hpre, hmin⟩ := ih c
      rcases pre with _ | ⟨p0, pre2⟩
      · simp only [List.nil_append] at hdecomp
        have h1 : closestScanFrom metric v c t = c := (List.cons.injEq _ _ _ _).mp hdecomp |>.1.symm
        refine ⟨[], x :: t, ?_, by simp, ?_⟩
        · rw [heq, h1, List.nil_append]
        · intro y hy
          rcases List.mem_cons.mp hy with rfl | hy2
          · rw [heq, h1]
          · rcases List.mem_cons.mp hy2 with rfl | hy3
            · rw [heq, h1]
              exact not_lt.mp hlt
            · rw [heq]
              exact hmin y (List.mem_cons_of_mem c hy3)
      · rw [List.cons_append] at hdecomp
        have h1 : p0 = c := ((List.cons.injEq _ _ _ _).mp hdecomp).1.symm
        have h2 : t = pre2 ++ closestScanFrom metric v c t :: post :=
          ((List.cons.injEq _ _ _ _).mp hdecomp).2
        have hresc : jsAbs (metric (closestScanFrom metric v c t) - v) <
            jsAbs (metric c - v) := by
          have := hpre p0 (List.mem_cons_self p0 pre2)
          rw [h1] at this
          exact this
        refine ⟨c :: x :: pre2, post, ?_, ?_, ?_⟩
        · rw [heq]
          simp only [List.cons_append]
          rw [← h2]
        · intro y hy
          rcases List.mem_cons.mp hy with rfl | hy2
          · rw [heq]
            exact hresc
          · rcases List.mem_cons.mp hy2 with rfl | hy3
            · rw [heq]
              exact lt_of_lt_of_le hresc (not_lt.mp hlt)
            · rw [heq]
              exact hpre y (h1 ▸ List.mem_cons_of_mem p0 hy3)
        · intro y hy
          rcases List.mem_cons.mp hy with rfl | hy2
          · rw [heq]
            exact hmin y (List.mem_cons_self y t)
          · rcases List.mem_cons.mp hy2 with rfl | hy3
            · rw [heq]
              exact le_trans (hmin c (List.mem_cons_self c t)) (not_lt.mp hlt)
            · rw [heq]
              exact hmin y (List.mem_cons_of_mem c hy3)

/-- The weight group that `findMatchByWeightAndHeight` refines over:
gender candidates within 0.1 kg of the weight-scan winner. -/
def weightGroupOf (data : List GrowthRecord) (g : Gender) (w : ℚ) :
    List GrowthRecord :=
  match genderCandidates data g with
  | [] => []
  | c0 :: rest => weightGroupAround (c0 :: rest) (weightScan w c0 (c0 :: rest))

/-- C3 (amended): when height is supplied and the weight group has more
than one member, the returned record minimizes `|record.height − height|`
over that group, and a tie on that distance keeps the EARLIEST member of
the group (the source passes no `unitMetric` to `findClosestInGroup`
here, so the larger-height tie-break of the claim never runs): the
result's height distance is strictly below that of every group member
preceding it. -/
theorem c3_amended (data : List GrowthRecord) (g : Gender) (w hv : ℚ)
    (rec : GrowthRecord)
    (hgrp : 1 < (weightGroupOf data g w).length)
    (hres : findMatchByWeightAndHeight (some data) g w (some hv) = .ok rec) :
    rec ∈ weightGroupOf data g w ∧
    (∀ x ∈ weightGroupOf data g w, jsAbs (rec.height - hv) ≤ jsAbs (x.height - hv)) ∧
    ∃ pre post, weightGroupOf data g w = pre ++ rec :: post ∧
      ∀ x ∈ pre, jsAbs (rec.height - hv) < jsAbs (x.height - hv) := by
  have hd : data ≠ [] := by
    intro h
    rw [h] at hgrp
    simp [weightGroupOf, genderCandidates] at hgrp
  rcases hcand : genderCandidates data g with _ | ⟨c0, rest⟩
  · rw [weightGroupOf, hcand] at hgrp
    simp at hgrp
  have hgw : weightGroupOf data g w =
      weightGroupAround (c0 :: rest) (weightScan w c0 (c0 :: rest)) := by
    rw [weightGroupOf, hcand]
  simp only [findMatchByWeightAndHeight, if_neg hd, hcand, ← hgw] at hres
  rw [if_pos hgrp] at hres
  rcases hg : weightGroupOf data g w with _ | ⟨g0, rest2⟩
  · rw [hg] at hgrp
    simp at hgrp
  rw [hg, findClosestInGroup_false_eq, Option.getD_some, Except.ok.injEq] at hres
  obtain ⟨pre, post, hdecomp, hpre, hmin⟩ :=
    closestScanFrom_spec (fun r => r.height) hv rest2 g0
  rw [hres] at hdecomp hpre hmin
  refine ⟨?_, ?_, pre, post, hdecomp, hpre⟩
  · rw [hdecomp]
    exact List.mem_append.mpr (Or.inr (List.mem_cons_self _ _))
  · intro x hx
    exact hmin x hx

/-- Two BOY records with equal weight and heights equidistant from the
query height, used by the C3 counterexample and witness. -/
def c3recA : GrowthRecord := ⟨.BOY, 4, .MONTH, 6, 60⟩

/-- See `c3recA`. -/
def c3recB : GrowthRecord := ⟨.BOY, 5, .MONTH, 6, 80⟩

/-- C3: the claim's tie-break (prefer the larger height) does not hold.
With both records at weight 6 and heights 60 and 80 equidistant from
the query height 70, the refinement returns the height-60 record (the
first group member), not the height-80 one. -/
theorem c3_counterexample :
    findMatchByWeightAndHeight (some [c3recA, c3recB]) .BOY 6 (some 70) = .ok c3recA ∧
    1 < (weightGroupOf [c3recA, c3recB] .BOY 6).length ∧
    jsAbs (c3recA.height - 70) = jsAbs (c3recB.height - 70) ∧
    c3recA.height < c3recB.height := by
  refine ⟨?_, ?_, ?_, ?_⟩
  · norm_num [findMatchByWeightAndHeight, genderCandidates, List.filter, weightScan,
      weightStep, List.foldl, weightGroupAround, findClosestInGroup,
      closestInGroupStep, convertToMonths, jsAbs, c3recA, c3recB, Option.getD,
      List.length]
    intro h
    cases h
  · norm_num [weightGroupOf, genderCandidates, List.filter, weightScan, weightStep,
      List.foldl, weightGroupAround, convertToMonths, jsAbs, c3recA, c3recB,
      List.length]
  · norm_num [jsAbs, c3recA, c3recB]
  · norm_num [c3recA, c3recB]

/-- Witness for C3 (amended) at the counterexample's dataset: the
returned record minimizes the height distance over the weight group. -/
theorem c3_amended_witness :
    c3recA ∈ weightGroupOf [c3recA, c3recB] .BOY 6 ∧
    (∀ x ∈ weightGroupOf [c3recA, c3recB] .BOY 6,
      jsAbs (c3recA.height - 70) ≤ jsAbs (x.height - 70)) := by
  have h := c3_amended [c3recA, c3recB] .BOY 6 70 c3recA
    c3_counterexample.2.1 c3_counterexample.1
  exact ⟨h.1, h.2.1⟩

/-- Strategy / partition / metric plumbing common to the C4 lookup
formalizations below; `ageKey` is the value compared against
`record.age` in the entry search.  This part of the behaviour is not in
dispute; only the computation of `ageKey` is. -/
def zCurvesLookupWith (zd : ZScoreData) (gender : Gender) (growthStage : ZStage)
    (ageKey : ℚ) (metric : Metric) : Option ZValues :=
  let strategy := match growthStage with
    | .infant => zd.strategyInfant
    | .child => zd.strategyChild
    | .adolescent => zd.strategyAdolescent
  if strategy = false then none
  else
    let dataSource : List ZScoreEntry :=
      match growthStage with
      | .infant => zd.infant
      | .child => zd.child
      | .adolescent => zd.adolescent.headD []
    match dataSource.find? (fun record =>
        record.age == ageKey && record.gender == gender) with
    | none => none
    | some zScoreEntry =>
      match growthStage, metric with
      | .adolescent, _ => zScoreEntry.bmiZ
      | _, .weight => zScoreEntry.weightZ
      | _, .height => zScoreEntry.heightZ
      | _, .bmi => none

/-- The lookup behaviour claim C4 asserts of `getZScoreCurves`: a
month-based age resolved to the adolescent stage is converted to the
nearest whole year before the (age, gender) entry lookup, while every
other age is looked up with its native unit and value. -/
def zCurvesClaimedLookup (zd : ZScoreData) (gender : Gender) (age : ℚ)
    (ageUnit : AgeUnit) (metric : Metric) : Option ZValues :=
  let growthStage := determineGrowthStage age ageUnit
  let ageKey : ℚ :=
    match growthStage, ageUnit with
    | .adolescent, .MONTH => (jsRound (age / 12) : ℚ)
    | _, _ => age
  zCurvesLookupWith zd gender growthStage ageKey metric

/-- The lookup the source performs: the raw age for MONTH-unit queries
and `Math.round(age)` for YEAR-unit queries, regardless of stage. -/
def zCurvesActualLookup (zd : ZScoreData) (gender : Gender) (age : ℚ)
    (ageUnit : AgeUnit) (metric : Metric) : Option ZValues :=
  let ageKey : ℚ :=
    match ageUnit with
    | .MONTH => age
    | .YEAR => (jsRound age : ℚ)
  zCurvesLookupWith zd gender (determineGrowthStage age ageUnit) ageKey metric

/-- C4 (amended): for every loaded z-score dataset and query,
`getZScoreCurves` keys the (age, gender) entry lookup by the RAW age
for MONTH-unit queries — never converting months to years, adolescent
stage included — and by the age rounded to the nearest integer for
YEAR-unit queries. -/
theorem c4_amended (zd : ZScoreData) (g : Gender) (a : ℚ) (u : AgeUnit)
    (m : Metric) :
    getZScoreCurves (some zd) g a u m = zCurvesActualLookup zd g a u m := by
  cases u with
  | MONTH =>
    rcases hst : determineGrowthStage a .MONTH with _ | _ | _ <;>
      simp only [getZScoreCurves, zCurvesActualLookup, zCurvesLookupWith, hst]
  | YEAR =>
    rcases hst : determineGrowthStage a .YEAR with _ | _ | _ <;>
      simp only [getZScoreCurves, zCurvesActualLookup, zCurvesLookupWith, hst]

/-- The curve values of the C4 counterexample's adolescent entry. -/
def c4zv : ZValues := ⟨14, 15, 16, 17, 18⟩

/-- An adolescent z-score entry indexed by 12 integer years. -/
def c4entry : ZScoreEntry := ⟨12, .BOY, none, none, some c4zv, some 150⟩

/-- A z-score dataset whose adolescent partition holds `c4entry`. -/
def c4data : ZScoreData := ⟨[], [], [[c4entry]], true, true, true⟩

set_option maxHeartbeats 1000000 in
/-- C4: the claimed month→year conversion does not happen.  At age 144
months (12 years, adolescent stage) the claimed lookup finds the
12-year entry and returns its BMI curves, but `getZScoreCurves` looks
up the raw value 144 and returns the empty result. -/
theorem c4_counterexample :
    determineGrowthStage 144 .MONTH = .adolescent ∧
    getZScoreCurves (some c4data) .BOY 144 .MONTH .weight = none ∧
    zCurvesClaimedLookup c4data .BOY 144 .MONTH .weight = some c4zv := by
  have hstage : determineGrowthStage 144 .MONTH = .adolescent := by
    norm_num [determineGrowthStage, convertToMonths]
  have hbeq : ((12 : ℚ) == (144 : ℚ)) = false := by
    rw [beq_eq_false_iff_ne]
    norm_num
  have hjs : jsRound (144 / 12 : ℚ) = 12 := by
    rw [jsRound_eq_intFloor]
    norm_num
  have hcast : ((12 : ℤ) : ℚ) = 12 := by norm_num
  have hbeq2 : ((12 : ℚ) == (12 : ℚ)) = true := by rw [beq_iff_eq]
  have hgb : (Gender.BOY == Gender.BOY) = true := rfl
  refine ⟨hstage, ?_, ?_⟩
  · simp only [getZScoreCurves, hstage, c4data, c4entry, List.headD, List.find?,
      hbeq, Bool.false_and]
    rfl
  · simp only [zCurvesClaimedLookup, zCurvesLookupWith, hstage, c4data, c4entry,
      List.headD, List.find?, hjs, hcast, hbeq2, hgb, Bool.and_self]
    rfl
